import Mathlib

/-!
# Verification of the "Slide Content Generator" front-end logic

This file shallowly embeds the logical core of the single React component
found in `src/src/App.jsx` and, as a second variant, in `src/unnamed/part_000`:
the upload → encode → request → parse → display/copy state machine.

Platform primitives (the DOM `FileReader`, `fetch`, `response.json()`,
`JSON.parse`, `navigator.clipboard.writeText`, `setTimeout`) are modelled as
explicit inputs: each handler becomes a pure function from the handler's
platform outcome and the current component state to the next component state.
JavaScript values flowing through the handlers (the parsed response envelope,
the stored slide content) are modelled by the `JsValue` inductive together
with executable models of the JavaScript semantics the handlers rely on:
property access, indexing, optional chaining, truthiness, template-literal
string conversion and `Array.prototype.join`.
-/

/-- Model of a JavaScript value as it can appear after `JSON.parse` /
`response.json()`, extended with `undefined` (produced by failed property
lookups).  Numbers are modelled as integers; no claim exercises non-integral
numbers. -/
inductive JsValue where
  | undef
  | null
  | bool (b : Bool)
  | num (n : Int)
  | str (s : String)
  | arr (xs : List JsValue)
  | obj (fields : List (String × JsValue))

/-- Property access `v[key]` on a JavaScript value whose base is not nullish:
objects yield the first binding of the key (or `undefined`), every other
non-nullish base yields `undefined` for the property names used by this
component. -/
def jsGet (v : JsValue) (key : String) : JsValue :=
  match v with
  | .obj fields => (((fields.find? (fun p => p.1 == key)).map Prod.snd).getD .undef)
  | _ => (.undef)

/-- Index access `v[n]` on a non-nullish JavaScript value: arrays yield the
element (or `undefined` out of bounds), strings yield the one-character string
at that position, objects look the numeric key up as a string, and every other
base yields `undefined`. -/
def jsIndex (v : JsValue) (n : Nat) : JsValue :=
  match v with
  | .arr xs => (xs.get? n).getD .undef
  | .str s => (((s.toList.get? n).map (fun c => JsValue.str (String.singleton c))).getD .undef)
  | .obj fields => jsGet (.obj fields) (toString n)
  | _ => (.undef)

/-- Truthiness of a JavaScript value (`NaN` does not arise in the integer
model). -/
def jsTruthy : JsValue → Bool
  | .undef => false
  | .null => false
  | .bool b => b
  | .num n => n != 0
  | .str s => s != ""
  | .arr _ => true
  | .obj _ => true

/-- Whether a JavaScript value is nullish (`null` or `undefined`), the
condition under which an unguarded property access throws a `TypeError`. -/
def isNullish : JsValue → Bool
  | .undef => true
  | .null => true
  | _ => false

/-- One step of an optional chain `v?.…`: a nullish base short-circuits to
`undefined`, otherwise the access is performed. -/
def optStep (v : JsValue) (f : JsValue → JsValue) : JsValue :=
  match v with
  | .undef => .undef
  | .null => .undef
  | w => f w

/-- Model of `Array.prototype.join(sep)` on an array of strings. -/
def jsJoin (sep : String) : List String → String
  | [] => ""
  | [a] => a
  | a :: as => a ++ (sep ++ jsJoin sep as)

mutual

/-- Template-literal string conversion of a JavaScript value, as performed by
a template placeholder: primitives print their usual form, arrays print like
`Array.prototype.join(",")` (where nullish elements print as the empty
string), objects print as the generic object tag. -/
def jsToString : JsValue → String
  | .undef => "undefined"
  | .null => "null"
  | .bool b => cond b "true" "false"
  | .num n => toString n
  | .str s => s
  | .arr xs => jsArrJoin xs
  | .obj _ => "[object Object]"

/-- Comma-join of array elements for `jsToString`, with the `join` rule that
nullish elements convert to the empty string. -/
def jsArrJoin : List JsValue → String
  | [] => ""
  | [x] => jsElemString x
  | x :: xs => jsElemString x ++ ("," ++ jsArrJoin xs)

/-- String conversion of one array element inside `join`: nullish elements
become the empty string, all others convert as in a template. -/
def jsElemString : JsValue → String
  | .undef => ""
  | .null => ""
  | .bool b => cond b "true" "false"
  | .num n => toString n
  | .str s => s
  | .arr xs => jsArrJoin xs
  | .obj _ => "[object Object]"

end

/-- RequestStatus enumeration of the component: the `status` React state
field, one of the four string literals of the source. -/
inductive Status where
  | idle
  | loading
  | success
  | error
deriving DecidableEq, Repr

/-- Component state: the six `useState` fields of `App`.  `none` models the
JavaScript `null`/`undefined` initialisations; `slideContent` holds the value
produced by `JSON.parse` when set. -/
structure State where
  image : Option String
  base64ImageData : Option String
  slideContent : Option JsValue
  status : Status
  error : String
  showToast : Bool

/-- Truthiness of the `slideContent` React state field (`null` when cleared,
otherwise the stored parsed value). -/
def slideTruthy : Option JsValue → Bool
  | none => false
  | some j => jsTruthy j

/-- Outcome of the `fetch` call as observed by `generateSlideContent`: either
the promise rejects (network failure, carrying the thrown message), or a
response arrives with an HTTP status code and the outcome of `response.json()`
(which itself either produces a JavaScript value or rejects with a message). -/
inductive FetchOutcome where
  | networkError (msg : String)
  | response (code : Nat) (body : Except String JsValue)

/-- Outcome of the asynchronous `navigator.clipboard.writeText` call. -/
inductive ClipOutcome where
  | resolved
  | rejected

/-- A selected file together with the platform `FileReader.readAsDataURL`
result for it (a data URL). -/
structure FileData where
  dataUrl : String

/-- A SlideContent value of the shape the response schema requests: a JSON
object with a string `title` and an array-of-strings `bulletPoints`. -/
def mkSlideContent (t : String) (ps : List String) : JsValue :=
  .obj [("title", .str t), ("bulletPoints", .arr (ps.map .str))]

/-- The `response.ok` predicate of the Fetch standard: HTTP status in the
range 200–299. -/
def responseOk (code : Nat) : Bool := 200 ≤ code && code < 300

namespace App1

/-! Embedding of the variant in `src/src/App.jsx`. -/

/-- The fixed instruction string of `generateSlideContent`
(`src/src/App.jsx` line 63). -/
def prompt : String := "You are an expert presentation creator. Analyze the following image and generate content for a single PowerPoint slide. Provide a concise, impactful title and 3-5 key bullet points that summarize the main theme or message of the image. The tone should be professional and informative. Respond with a JSON object."

/-- The endpoint URL built from the configured API key
(`src/src/App.jsx` line 67). -/
def apiUrl (apiKey : String) : String :=
  "https://generativelanguage.googleapis.com/v1beta/models/gemini-1.5-flash:generateContent?key=" ++ apiKey

/-- The JSON request body of the outbound POST (`src/src/App.jsx`
lines 81–105): the prompt, the image payload declared as JPEG, and the
structured-output schema requiring `title` and `bulletPoints`. -/
def requestBody (b64 : String) : JsValue :=
  .obj [
    ("contents", .arr [
      .obj [
        ("role", .str "user"),
        ("parts", .arr [
          .obj [("text", .str prompt)],
          .obj [("inlineData", .obj [("mimeType", .str "image/jpeg"), ("data", .str b64)])]
        ])
      ]
    ]),
    ("generationConfig", .obj [
      ("responseMimeType", .str "application/json"),
      ("responseSchema", .obj [
        ("type", .str "OBJECT"),
        ("properties", .obj [
          ("title", .obj [("type", .str "STRING")]),
          ("bulletPoints", .obj [("type", .str "ARRAY"), ("items", .obj [("type", .str "STRING")])])
        ]),
        ("required", .arr [.str "title", .str "bulletPoints"])
      ])
    ])
  ]

/-- The synchronous part of `handleImageUpload` after a file is present
(`src/src/App.jsx` lines 40–42): reset the UI state for the new image. -/
def handleImageUploadReset (st : State) : State :=
  { st with status := Status.idle, slideContent := none, error := "" }

/-- The `reader.onload` callback (`src/src/App.jsx` lines 45–48): store the
data URL for the preview and the base64 payload `dataUrl.split(",")[1]`
(absent when the data URL contains no comma, as `split` then has no second
element). -/
def readerOnload (dataUrl : String) (st : State) : State :=
  { st with image := some dataUrl,
            base64ImageData := (dataUrl.splitOn ",").get? 1 }

/-- The `handleImageUpload` handler (`src/src/App.jsx` lines 35–50) composed
with the completion of the file read: no selected file is a no-op; otherwise
the state is reset and then, when the reader fires, the preview and payload
are populated. -/
def handleImageUpload (file : Option FileData) (st : State) : State :=
  match file with
  | none => st
  | some f => readerOnload f.dataUrl (handleImageUploadReset st)

/-- The `catch` block of `generateSlideContent` (`src/src/App.jsx`
lines 123–127): wrap the thrown message and move to the error status. -/
def jsError (st : State) (m : String) : State :=
  { st with error := "An error occurred: " ++ m, status := Status.error }

/-- The optional chain `result.candidates?.[0]?.content?.parts?.[0]` of
`src/src/App.jsx` line 114, evaluated on a non-nullish `result`. -/
def extractPart (result : JsValue) : JsValue :=
  optStep (optStep (optStep (optStep (jsGet result "candidates")
    (fun v => jsIndex v 0)) (fun v => jsGet v "content"))
    (fun v => jsGet v "parts")) (fun v => jsIndex v 0)

/-- The `generateSlideContent` handler (`src/src/App.jsx` lines 55–128) as a
function of the platform `JSON.parse` behaviour, the `fetch` outcome and the
current state.  A falsy `base64ImageData` returns early; otherwise the status
becomes `loading` and the call proceeds: a rejected fetch, a non-ok status, a
rejected `response.json()`, a nullish envelope (whose unguarded `.candidates`
access throws a `TypeError`), a missing content path, or a `JSON.parse`
failure all land in the catch block; a parse success stores the parsed value
and moves to `success`.  Under the truthiness guard the re-traversal
`result.candidates[0].content.parts[0]` of line 115 equals the chained part,
so the extracted text is that part's `text` property. -/
def generateSlideContent (parse : String → Except String JsValue)
    (fetch : FetchOutcome) (st : State) : State :=
  match st.base64ImageData with
  | none => st
  | some b64 =>
    if b64 = "" then st
    else
      let st1 := { st with status := Status.loading }
      match fetch with
      | FetchOutcome.networkError m => jsError st1 m
      | FetchOutcome.response code body =>
        if responseOk code then
          match body with
          | Except.error m => jsError st1 m
          | Except.ok result =>
            if isNullish result then
              jsError st1 "Cannot read properties of null reading candidates"
            else
              let part := extractPart result
              if jsTruthy part then
                match parse (jsToString (jsGet part "text")) with
                | Except.ok parsedJson =>
                  { st1 with slideContent := some parsedJson, status := Status.success }
                | Except.error m => jsError st1 m
              else jsError st1 "Unexpected API response structure."
        else jsError st1 ("API request failed with status " ++ toString code)

/-- The `copyContentToClipboard` handler (`src/src/App.jsx` lines 133–147) as
a function of the clipboard outcome.  A falsy `slideContent` returns early
(nothing written).  Otherwise the text is built from the destructured `title`
and `bulletPoints`; when `bulletPoints` is not an array the `.map` call throws
a `TypeError` before the `try` block, so nothing is written and the state is
unchanged.  When the write resolves the toast is shown; when it rejects the
catch block stores the fixed message and moves to the error status.  The
second component is the text handed to `navigator.clipboard.writeText`
(`none` when no write was attempted). -/
def copyContentToClipboard (st : State) (clip : ClipOutcome) : State × Option String :=
  if slideTruthy st.slideContent then
    let j := st.slideContent.getD .undef
    let title := jsGet j "title"
    match jsGet j "bulletPoints" with
    | .arr ps =>
      let text := "Title:\n" ++ (jsToString title ++ ("\n\nBullet Points:\n" ++
        jsJoin "\n" (ps.map (fun p => "- " ++ jsToString p))))
      match clip with
      | ClipOutcome.resolved => ({ st with showToast := true }, some text)
      | ClipOutcome.rejected =>
        ({ st with error := "Could not copy text to clipboard.", status := Status.error }, some text)
    | _ => (st, none)
  else (st, none)

/-- A rendered view of the right-hand content area. -/
inductive View where
  | spinner
  | errorView (msg : String)
  | successView (content : JsValue)
  | placeholder

/-- The conditional rendering of the content area (`src/src/App.jsx`
lines 189–194): four independently guarded fragments, concatenated in source
order. -/
def renderViews (status : Status) (slideContent : Option JsValue) (errMsg : String) : List View :=
  (if status = Status.loading then [View.spinner] else []) ++
  ((if status = Status.error then [View.errorView errMsg] else []) ++
  ((if status = Status.success ∧ slideTruthy slideContent = true then
      [View.successView (slideContent.getD JsValue.undef)] else []) ++
  (if status = Status.idle then [View.placeholder] else [])))

/-- The view the specification expects in each state where one renders. -/
def expectedView (status : Status) (slideContent : Option JsValue) (errMsg : String) : View :=
  match status with
  | Status.loading => View.spinner
  | Status.error => View.errorView errMsg
  | Status.success => View.successView (slideContent.getD JsValue.undef)
  | Status.idle => View.placeholder

end App1

namespace App2

/-! Embedding of the variant in `src/unnamed/part_000`.  Its handlers
(lines 27–41, 43–108 and 110–125) carry the same logic as the first variant;
the definitions below are traced from that file independently so that the
behavioural-equivalence claim compares two embeddings, one per source file. -/

/-- The fixed instruction string of `generateSlideContent`
(`src/unnamed/part_000` line 52). -/
def prompt : String := "You are an expert presentation creator. Analyze the following image and generate content for a single PowerPoint slide. Provide a concise, impactful title and 3-5 key bullet points that summarize the main theme or message of the image. The tone should be professional and informative. Respond with a JSON object."

/-- The endpoint URL built from the configured API key
(`src/unnamed/part_000` line 55). -/
def apiUrl (apiKey : String) : String :=
  "https://generativelanguage.googleapis.com/v1beta/models/gemini-1.5-flash:generateContent?key=" ++ apiKey

/-- The JSON request body of the outbound POST (`src/unnamed/part_000`
lines 61–85). -/
def requestBody (b64 : String) : JsValue :=
  .obj [
    ("contents", .arr [
      .obj [
        ("role", .str "user"),
        ("parts", .arr [
          .obj [("text", .str prompt)],
          .obj [("inlineData", .obj [("mimeType", .str "image/jpeg"), ("data", .str b64)])]
        ])
      ]
    ]),
    ("generationConfig", .obj [
      ("responseMimeType", .str "application/json"),
      ("responseSchema", .obj [
        ("type", .str "OBJECT"),
        ("properties", .obj [
          ("title", .obj [("type", .str "STRING")]),
          ("bulletPoints", .obj [("type", .str "ARRAY"), ("items", .obj [("type", .str "STRING")])])
        ]),
        ("required", .arr [.str "title", .str "bulletPoints"])
      ])
    ])
  ]

/-- The synchronous reset of `handleImageUpload` (`src/unnamed/part_000`
lines 31–33). -/
def handleImageUploadReset (st : State) : State :=
  { st with status := Status.idle, slideContent := none, error := "" }

/-- The `reader.onload` callback (`src/unnamed/part_000` lines 36–39). -/
def readerOnload (dataUrl : String) (st : State) : State :=
  { st with image := some dataUrl,
            base64ImageData := (dataUrl.splitOn ",").get? 1 }

/-- The `handleImageUpload` handler (`src/unnamed/part_000` lines 27–41)
composed with the completion of the file read. -/
def handleImageUpload (file : Option FileData) (st : State) : State :=
  match file with
  | none => st
  | some f => readerOnload f.dataUrl (handleImageUploadReset st)

/-- The `catch` block of `generateSlideContent` (`src/unnamed/part_000`
lines 103–107). -/
def jsError (st : State) (m : String) : State :=
  { st with error := "An error occurred: " ++ m, status := Status.error }

/-- The optional chain `result.candidates?.[0]?.content?.parts?.[0]` of
`src/unnamed/part_000` line 94. -/
def extractPart (result : JsValue) : JsValue :=
  optStep (optStep (optStep (optStep (jsGet result "candidates")
    (fun v => jsIndex v 0)) (fun v => jsGet v "content"))
    (fun v => jsGet v "parts")) (fun v => jsIndex v 0)

/-- The `generateSlideContent` handler (`src/unnamed/part_000` lines 43–108),
modelled exactly as the first variant's. -/
def generateSlideContent (parse : String → Except String JsValue)
    (fetch : FetchOutcome) (st : State) : State :=
  match st.base64ImageData with
  | none => st
  | some b64 =>
    if b64 = "" then st
    else
      let st1 := { st with status := Status.loading }
      match fetch with
      | FetchOutcome.networkError m => jsError st1 m
      | FetchOutcome.response code body =>
        if responseOk code then
          match body with
          | Except.error m => jsError st1 m
          | Except.ok result =>
            if isNullish result then
              jsError st1 "Cannot read properties of null reading candidates"
            else
              let part := extractPart result
              if jsTruthy part then
                match parse (jsToString (jsGet part "text")) with
                | Except.ok parsedJson =>
                  { st1 with slideContent := some parsedJson, status := Status.success }
                | Except.error m => jsError st1 m
              else jsError st1 "Unexpected API response structure."
        else jsError st1 ("API request failed with status " ++ toString code)

/-- The `copyContentToClipboard` handler (`src/unnamed/part_000`
lines 110–125), modelled exactly as the first variant's. -/
def copyContentToClipboard (st : State) (clip : ClipOutcome) : State × Option String :=
  if slideTruthy st.slideContent then
    let j := st.slideContent.getD .undef
    let title := jsGet j "title"
    match jsGet j "bulletPoints" with
    | .arr ps =>
      let text := "Title:\n" ++ (jsToString title ++ ("\n\nBullet Points:\n" ++
        jsJoin "\n" (ps.map (fun p => "- " ++ jsToString p))))
      match clip with
      | ClipOutcome.resolved => ({ st with showToast := true }, some text)
      | ClipOutcome.rejected =>
        ({ st with error := "Could not copy text to clipboard.", status := Status.error }, some text)
    | _ => (st, none)
  else (st, none)

end App2

namespace ToastTimer

/-! Model of the toast-expiry effect (`src/src/App.jsx` lines 24–29,
`src/unnamed/part_000` lines 20–25).  The effect has dependency array
`[showToast]`: its cleanup (`clearTimeout`) and body run again only when the
value of `showToast` differs between renders, and React skips the update
entirely when a state setter receives the current value.  Consequently a
`setShowToast(true)` while the toast is already visible neither cancels nor
reschedules the pending timer. -/

/-- Toast state: the `showToast` React state field together with the absolute
firing time of the pending `setTimeout`, if one is scheduled. -/
structure TState where
  showToast : Bool
  expiry : Option Nat

/-- Firing of a due timer: at any time `now` at or past the scheduled expiry,
the timeout callback has run `setShowToast(false)` and the timer is gone. -/
def fireDue (ts : TState) (now : Nat) : TState :=
  match ts.expiry with
  | some e => if e ≤ now then { showToast := false, expiry := none } else ts
  | none => ts

/-- A successful clipboard export at time `now`: `setShowToast(true)`.  If the
toast is already visible the value does not change, so the effect does not
re-run and the pending timer stays; otherwise the effect schedules a hide
2000 ms later (after cleaning up any previous, already-fired timer). -/
def trigger (ts : TState) (now : Nat) : TState :=
  let u := fireDue ts now
  if u.showToast then u else { showToast := true, expiry := some (now + 2000) }

/-- Toast visibility observed at time `t` (at or after the last trigger):
the `showToast` value once any due timer has fired. -/
def visibleAt (ts : TState) (t : Nat) : Bool := (fireDue ts t).showToast

end ToastTimer

/-! ## Concrete sample inputs used by witnesses and counterexamples -/

/-- Serialization of a SlideContent as the specification words it: the line
`Title:`, the title, a blank line, the line `Bullet Points:`, then one line
per bullet point prefixed with `- `, in original order. -/
def specSerialize (t : String) (ps : List String) : String :=
  jsJoin "\n" (["Title:", t, "", "Bullet Points:"] ++ ps.map (fun p => "- " ++ p))

/-- A state in which an image has been read and a request issued. -/
def sampleState : State :=
  { image := some "data:image/png;base64,QUJD", base64ImageData := some "QUJD",
    slideContent := none, status := Status.loading, error := "", showToast := false }

/-- A state displaying a generated SlideContent, ready for export. -/
def sampleContentState : State :=
  { sampleState with
      slideContent := some (mkSlideContent "Q1 Results" ["Revenue up 12%", "New markets opened"]),
      status := Status.success }

/-- Response text that is valid JSON but lacks the `title` field. -/
def cexText : String := "\x7b\"bulletPoints\":[]\x7d"

/-- The JavaScript value `JSON.parse` produces for `cexText`: an object with
`bulletPoints` present and `title` absent. -/
def cexParsed : JsValue := JsValue.obj [("bulletPoints", JsValue.arr [])]

/-- A model of the platform `JSON.parse` behaviour on the texts of interest:
it succeeds on `cexText` with `cexParsed` (as real `JSON.parse` does) and
fails elsewhere. -/
def cexParse : String → Except String JsValue :=
  fun s => if s = cexText then Except.ok cexParsed else Except.error "SyntaxError"

/-- A response envelope whose candidate/content/parts path is present and
whose extracted text is `cexText`. -/
def cexEnvelope : JsValue :=
  JsValue.obj [("candidates", JsValue.arr [JsValue.obj [("content",
    JsValue.obj [("parts", JsValue.arr [JsValue.obj [("text", JsValue.str cexText)]])])]])]

/-! ## Helper lemmas -/

/-- Firing behaviour of a scheduled timer, stated as an equation. -/
lemma fireDue_some (b : Bool) (e now : Nat) :
    ToastTimer.fireDue ⟨b, some e⟩ now =
      if e ≤ now then ⟨false, none⟩ else ⟨b, some e⟩ := rfl

/-- Appending to a string whose character list is nonempty never yields the
empty string. -/
lemma str_append_ne_empty (s t : String) (h : s.data ≠ []) : s ++ t ≠ "" := by
  intro hc
  apply h
  have hd := congrArg String.data hc
  rw [String.data_append] at hd
  exact (List.append_eq_nil.mp hd).1

/-- Reassociation step merging two adjacent string chunks into one. -/
lemma str_chunk (a b c x : String) (h : a ++ b = c) : a ++ (b ++ x) = c ++ x := by
  rw [← String.append_assoc, h]

/-- Unfolding of the modelled `join` at a head element with a nonempty tail. -/
lemma jsJoin_cons (sep a : String) (l : List String) (h : l ≠ []) :
    jsJoin sep (a :: l) = a ++ (sep ++ jsJoin sep l) := by
  cases l with
  | nil => exact absurd rfl h
  | cons b bs => rfl

/-! ## Claim theorems -/

/-- C2: a file-selection event carrying no file is a no-op; one carrying a
file first resets RequestStatus to idle, clears SlideContent and ErrorDetail
— the reset phase leaves the preview and payload untouched — and only then,
when the reader fires, populates the preview with the data URL and the
transport payload with the segment of the data URL after the first comma. -/
theorem claim_C2 : ∀ (f : FileData) (st : State),
    App1.handleImageUpload none st = st ∧
    App1.handleImageUploadReset st =
      { st with status := Status.idle, slideContent := none, error := "" } ∧
    (App1.handleImageUploadReset st).image = st.image ∧
    (App1.handleImageUploadReset st).base64ImageData = st.base64ImageData ∧
    App1.handleImageUpload (some f) st =
      { st with status := Status.idle, slideContent := none, error := "",
                image := some f.dataUrl,
                base64ImageData := (f.dataUrl.splitOn ",").get? 1 } := by
  intro f st
  exact ⟨rfl, rfl, rfl, rfl, rfl⟩

/-- C9: the two source variants are behaviourally equivalent on the logical
core: their upload, request and clipboard handlers are the same functions of
the same platform outcomes, and they build the same prompt, endpoint URL and
outbound request body. -/
theorem claim_C9 :
    App1.handleImageUpload = App2.handleImageUpload ∧
    App1.generateSlideContent = App2.generateSlideContent ∧
    App1.copyContentToClipboard = App2.copyContentToClipboard ∧
    App1.prompt = App2.prompt ∧
    App1.apiUrl = App2.apiUrl ∧
    App1.requestBody = App2.requestBody :=
  ⟨rfl, rfl, rfl, rfl, rfl, rfl⟩

/-- C6 counterexample: in the state with RequestStatus success and
SlideContent null the content area renders none of the four views — in
particular not the idle placeholder — refuting both the fallback and the
exactly-one-view part of the claim at this input. -/
theorem claim_C6_counterexample :
    App1.renderViews Status.success none "" = [] ∧
    App1.View.placeholder ∉ App1.renderViews Status.success none "" := by
  refine ⟨rfl, ?_⟩
  intro h
  simp [App1.renderViews, slideTruthy] at h

/-- C6 amended: the conditional rendering shows exactly one of the four views
in every state except that RequestStatus success with a falsy SlideContent
(null in particular) renders none of them, leaving the content area blank
rather than falling back to the idle placeholder. -/
theorem claim_C6 : ∀ (s : Status) (c : Option JsValue) (e : String),
    App1.renderViews s c e =
      if s = Status.success ∧ slideTruthy c = false then []
      else [App1.expectedView s c e] := by
  intro s c e
  cases s <;> cases hc : slideTruthy c <;>
    simp [App1.renderViews, App1.expectedView, hc]

/-- C4: a response completing at the transport level with a non-success HTTP
status moves RequestStatus to error and stores a non-empty ErrorDetail
message that mentions the numeric status indicator. -/
theorem claim_C4 : ∀ (parse : String → Except String JsValue) (st : State) (b64 : String)
    (code : Nat) (body : Except String JsValue),
    st.base64ImageData = some b64 → b64 ≠ "" → (code < 200 ∨ 300 ≤ code) →
    ((App1.generateSlideContent parse (FetchOutcome.response code body) st).status = Status.error ∧
     (App1.generateSlideContent parse (FetchOutcome.response code body) st).error =
       "An error occurred: API request failed with status " ++ toString code ∧
     (App1.generateSlideContent parse (FetchOutcome.response code body) st).error ≠ "" ∧
     ∃ pre post, (App1.generateSlideContent parse (FetchOutcome.response code body) st).error =
       pre ++ (toString code ++ post)) := by
  intro parse st b64 code body h1 h2 h3
  have hok : responseOk code = false := by
    simp only [responseOk]
    rcases h3 with h | h <;> simp <;> omega
  have hres : App1.generateSlideContent parse (FetchOutcome.response code body) st =
      App1.jsError { st with status := Status.loading }
        ("API request failed with status " ++ toString code) := by
    simp [App1.generateSlideContent, h1, h2, hok]
  rw [hres]
  refine ⟨rfl, str_chunk _ _ _ _ rfl, str_append_ne_empty _ _ (by decide), ?_⟩
  exact ⟨"An error occurred: API request failed with status ", "", by
    rw [String.append_empty]
    exact str_chunk _ _ _ _ rfl⟩

/-- C5: a response that is ok at the transport level but whose non-null JSON
envelope lacks the candidate/content/parts path moves RequestStatus to error
and stores the generic unexpected-response-structure message, wrapped by the
same catch-all prefix used for transport failures. -/
theorem claim_C5 : ∀ (parse : String → Except String JsValue) (st : State) (b64 : String)
    (code : Nat) (result : JsValue),
    st.base64ImageData = some b64 → b64 ≠ "" →
    responseOk code = true →
    isNullish result = false →
    jsTruthy (App1.extractPart result) = false →
    ((App1.generateSlideContent parse (FetchOutcome.response code (Except.ok result)) st).status = Status.error ∧
     (App1.generateSlideContent parse (FetchOutcome.response code (Except.ok result)) st).error =
       "An error occurred: Unexpected API response structure." ∧
     (App1.generateSlideContent parse (FetchOutcome.response code (Except.ok result)) st).error ≠ "" ∧
     ∃ m, (App1.generateSlideContent parse (FetchOutcome.response code (Except.ok result)) st).error =
       "An error occurred: " ++ m) := by
  intro parse st b64 code result h1 h2 h3 h4 h5
  have hres : App1.generateSlideContent parse (FetchOutcome.response code (Except.ok result)) st =
      App1.jsError { st with status := Status.loading } "Unexpected API response structure." := by
    simp [App1.generateSlideContent, h1, h2, h3, h4, h5]
  rw [hres]
  exact ⟨rfl, rfl, str_append_ne_empty _ _ (by decide), "Unexpected API response structure.", rfl⟩

/-- C5 witness: a 200 response whose envelope is the empty object lands in
the structural error with the generic message. -/
theorem claim_C5_witness :
    (App1.generateSlideContent (fun _ => Except.error "SyntaxError")
      (FetchOutcome.response 200 (Except.ok (JsValue.obj []))) sampleState).status = Status.error ∧
    (App1.generateSlideContent (fun _ => Except.error "SyntaxError")
      (FetchOutcome.response 200 (Except.ok (JsValue.obj []))) sampleState).error =
      "An error occurred: Unexpected API response structure." :=
  ⟨(claim_C5 (fun _ => Except.error "SyntaxError") sampleState "QUJD" 200 (JsValue.obj [])
      rfl (by decide) (by decide) rfl rfl).1,
   (claim_C5 (fun _ => Except.error "SyntaxError") sampleState "QUJD" 200 (JsValue.obj [])
      rfl (by decide) (by decide) rfl rfl).2.1⟩

/-- C4 witness: an HTTP 500 response yields the error status with a message
mentioning 500. -/
theorem claim_C4_witness :
    (App1.generateSlideContent (fun _ => Except.error "SyntaxError")
      (FetchOutcome.response 500 (Except.ok (JsValue.obj []))) sampleState).status = Status.error ∧
    (App1.generateSlideContent (fun _ => Except.error "SyntaxError")
      (FetchOutcome.response 500 (Except.ok (JsValue.obj []))) sampleState).error =
      "An error occurred: API request failed with status " ++ toString 500 :=
  ⟨(claim_C4 (fun _ => Except.error "SyntaxError") sampleState "QUJD" 500
      (Except.ok (JsValue.obj [])) rfl (by decide) (Or.inr (by omega))).1,
   (claim_C4 (fun _ => Except.error "SyntaxError") sampleState "QUJD" 500
      (Except.ok (JsValue.obj [])) rfl (by decide) (Or.inr (by omega))).2.1⟩

/-- C1 counterexample: a 200 response whose envelope contains the
candidate/content/parts path and whose extracted text parses as a JSON object
with `bulletPoints` present but `title` absent is nevertheless stored and
RequestStatus becomes success, not error as the claim states. -/
theorem claim_C1_counterexample :
    (App1.generateSlideContent cexParse
      (FetchOutcome.response 200 (Except.ok cexEnvelope)) sampleState).status = Status.success ∧
    (App1.generateSlideContent cexParse
      (FetchOutcome.response 200 (Except.ok cexEnvelope)) sampleState).slideContent = some cexParsed ∧
    jsGet cexParsed "title" = JsValue.undef ∧
    jsGet cexParsed "bulletPoints" = JsValue.arr [] :=
  ⟨rfl, rfl, rfl, rfl⟩

/-- C1 amended: for every request whose HTTP call succeeds and whose response
envelope contains the candidate/content/parts path, `generateSlideContent`
moves RequestStatus to success and stores the parsed value whenever the
extracted text parses as JSON at all — the required fields `title` and
`bulletPoints` are declared in the request's response schema but are not
validated client-side, so a parsed object lacking either field is still
stored; only a JSON parse failure of the extracted text is rejected, through
the same catch-all error path as transport failures. -/
theorem claim_C1 : ∀ (parse : String → Except String JsValue) (st : State) (b64 : String)
    (code : Nat) (result : JsValue),
    st.base64ImageData = some b64 → b64 ≠ "" →
    responseOk code = true →
    isNullish result = false →
    jsTruthy (App1.extractPart result) = true →
    ((∀ j, parse (jsToString (jsGet (App1.extractPart result) "text")) = Except.ok j →
      (App1.generateSlideContent parse (FetchOutcome.response code (Except.ok result)) st).status = Status.success ∧
      (App1.generateSlideContent parse (FetchOutcome.response code (Except.ok result)) st).slideContent = some j) ∧
     (∀ m, parse (jsToString (jsGet (App1.extractPart result) "text")) = Except.error m →
      (App1.generateSlideContent parse (FetchOutcome.response code (Except.ok result)) st).status = Status.error ∧
      (App1.generateSlideContent parse (FetchOutcome.response code (Except.ok result)) st).error =
        "An error occurred: " ++ m)) := by
  intro parse st b64 code result h1 h2 h3 h4 h5
  constructor
  · intro j hj
    have hres : App1.generateSlideContent parse (FetchOutcome.response code (Except.ok result)) st =
        { st with slideContent := some j, status := Status.success } := by
      simp [App1.generateSlideContent, h1, h2, h3, h4, h5, hj]
    rw [hres]
    exact ⟨rfl, rfl⟩
  · intro m hm
    have hres : App1.generateSlideContent parse (FetchOutcome.response code (Except.ok result)) st =
        App1.jsError { st with status := Status.loading } m := by
      simp [App1.generateSlideContent, h1, h2, h3, h4, h5, hm]
    rw [hres]
    exact ⟨rfl, rfl⟩

/-- C1 witness: the amended theorem applied at the concrete counterexample
input, discharging every hypothesis there. -/
theorem claim_C1_witness :
    (App1.generateSlideContent cexParse
      (FetchOutcome.response 200 (Except.ok cexEnvelope)) sampleState).status = Status.success ∧
    (App1.generateSlideContent cexParse
      (FetchOutcome.response 200 (Except.ok cexEnvelope)) sampleState).slideContent = some cexParsed :=
  (claim_C1 cexParse sampleState "QUJD" 200 cexEnvelope rfl (by decide) (by decide) rfl rfl).1
    cexParsed rfl

/-- Text handed to the clipboard by the export handler when the stored
content has the schema shape, stated as the code builds it. -/
lemma copy_text_eq (t : String) (ps : List String) (st : State) (clip : ClipOutcome)
    (h : st.slideContent = some (mkSlideContent t ps)) :
    (App1.copyContentToClipboard st clip).2 =
      some ("Title:\n" ++ (t ++ ("\n\nBullet Points:\n" ++
        jsJoin "\n" (ps.map (fun p => "- " ++ p))))) := by
  have htru : slideTruthy (some (mkSlideContent t ps)) = true := rfl
  have hmap : List.map ((fun p => "- " ++ jsToString p) ∘ JsValue.str) ps =
      List.map (fun p => "- " ++ p) ps := rfl
  have hti : jsGet (mkSlideContent t ps) "title" = JsValue.str t := rfl
  have hbu : jsGet (mkSlideContent t ps) "bulletPoints" = JsValue.arr (List.map JsValue.str ps) := rfl
  have hts : jsToString (JsValue.str t) = t := rfl
  cases clip <;> simp [App1.copyContentToClipboard, h, htru, hti, hbu, hts, hmap]

/-- Agreement of the code's clipboard text with the specification's line-form
serialization, for a nonempty bullet list. -/
lemma copy_text_spec (t : String) (ps : List String) (h : ps ≠ []) :
    "Title:\n" ++ (t ++ ("\n\nBullet Points:\n" ++
      jsJoin "\n" (ps.map (fun p => "- " ++ p)))) = specSerialize t ps := by
  have hm : ps.map (fun p => "- " ++ p) ≠ [] := by
    cases ps with
    | nil => exact absurd rfl h
    | cons a l => simp
  unfold specSerialize
  simp only [List.cons_append, List.nil_append]
  rw [jsJoin_cons _ _ _ (by simp), jsJoin_cons _ _ _ (by simp),
      jsJoin_cons _ _ _ (by simp), jsJoin_cons _ _ _ hm]
  rw [str_chunk "Bullet Points:" "\n" "Bullet Points:\n" _ rfl]
  rw [str_chunk "\n" "Bullet Points:\n" "\nBullet Points:\n" _ rfl]
  rw [str_chunk "" "\nBullet Points:\n" "\nBullet Points:\n" _ rfl]
  rw [str_chunk "\n" "\nBullet Points:\n" "\n\nBullet Points:\n" _ rfl]
  rw [str_chunk "Title:" "\n" "Title:\n" _ rfl]

/-- C3: for a fixed SlideContent with title `t` and bullet points `ps`, the
clipboard export serializes exactly the specification's line form — the line
`Title:`, then `t`, then a blank line, then the line `Bullet Points:`, then
one `- `-prefixed line per bullet in order — the text depends only on the
title and bullets (not on the rest of the state or the clipboard outcome),
and on the concrete Q1 example it equals the expected literal. -/
theorem claim_C3 : ∀ (t : String) (ps : List String) (st : State) (clip : ClipOutcome),
    (st.slideContent = some (mkSlideContent t ps) → ps ≠ [] →
      (App1.copyContentToClipboard st clip).2 = some (specSerialize t ps)) ∧
    (∀ (st2 : State) (clip2 : ClipOutcome),
      st.slideContent = some (mkSlideContent t ps) →
      st2.slideContent = some (mkSlideContent t ps) →
      (App1.copyContentToClipboard st clip).2 = (App1.copyContentToClipboard st2 clip2).2) ∧
    (st.slideContent = some (mkSlideContent "Q1 Results" ["Revenue up 12%", "New markets opened"]) →
      (App1.copyContentToClipboard st clip).2 =
        some "Title:\nQ1 Results\n\nBullet Points:\n- Revenue up 12%\n- New markets opened") := by
  intro t ps st clip
  refine ⟨fun h hps => ?_, fun st2 clip2 h h2 => ?_, fun h => ?_⟩
  · rw [copy_text_eq t ps st clip h, copy_text_spec t ps hps]
  · rw [copy_text_eq t ps st clip h, copy_text_eq t ps st2 clip2 h2]
  · rw [copy_text_eq _ _ _ _ h]
    rfl

/-- C3 witness: the serialization theorem applied to a concrete state holding
the Q1 Results content. -/
theorem claim_C3_witness :
    (App1.copyContentToClipboard sampleContentState ClipOutcome.resolved).2 =
      some (specSerialize "Q1 Results" ["Revenue up 12%", "New markets opened"]) :=
  (claim_C3 "Q1 Results" ["Revenue up 12%", "New markets opened"]
    sampleContentState ClipOutcome.resolved).1 rfl (by decide)

/-- C7: a rejected clipboard write moves RequestStatus to error with the
fixed message, even from an existing success state, so the re-rendered
content area shows the error view (the content view is discarded), and the
toast flag is not raised by that export. -/
theorem claim_C7 : ∀ (st : State) (ps : List JsValue),
    st.status = Status.success →
    slideTruthy st.slideContent = true →
    jsGet (st.slideContent.getD JsValue.undef) "bulletPoints" = JsValue.arr ps →
    ((App1.copyContentToClipboard st ClipOutcome.rejected).1.status = Status.error ∧
     (App1.copyContentToClipboard st ClipOutcome.rejected).1.error =
       "Could not copy text to clipboard." ∧
     (App1.copyContentToClipboard st ClipOutcome.rejected).1.showToast = st.showToast ∧
     App1.renderViews (App1.copyContentToClipboard st ClipOutcome.rejected).1.status
       (App1.copyContentToClipboard st ClipOutcome.rejected).1.slideContent
       (App1.copyContentToClipboard st ClipOutcome.rejected).1.error =
       [App1.View.errorView "Could not copy text to clipboard."]) := by
  intro st ps hst htru hbul
  have hres : (App1.copyContentToClipboard st ClipOutcome.rejected).1 =
      { st with error := "Could not copy text to clipboard.", status := Status.error } := by
    simp [App1.copyContentToClipboard, htru, hbul]
  rw [hres]
  refine ⟨rfl, rfl, rfl, ?_⟩
  simp [App1.renderViews]

/-- C7 witness: the clipboard-failure theorem applied to the concrete success
state holding the Q1 Results content. -/
theorem claim_C7_witness :
    (App1.copyContentToClipboard sampleContentState ClipOutcome.rejected).1.status = Status.error ∧
    (App1.copyContentToClipboard sampleContentState ClipOutcome.rejected).1.error =
      "Could not copy text to clipboard." :=
  ⟨(claim_C7 sampleContentState [JsValue.str "Revenue up 12%", JsValue.str "New markets opened"]
      rfl rfl rfl).1,
   (claim_C7 sampleContentState [JsValue.str "Revenue up 12%", JsValue.str "New markets opened"]
      rfl rfl rfl).2.1⟩

/-- C10: a rejected clipboard write changes only the RequestStatus and
ErrorDetail fields — SlideContent, the preview, the base64 payload and the
toast flag keep their previous values — and an export invoked while
SlideContent is null is a no-op that changes no state field and hands
nothing to the clipboard. -/
theorem claim_C10 : ∀ (st : State) (ps : List JsValue) (clip : ClipOutcome),
    (slideTruthy st.slideContent = true →
     jsGet (st.slideContent.getD JsValue.undef) "bulletPoints" = JsValue.arr ps →
     ((App1.copyContentToClipboard st ClipOutcome.rejected).1.slideContent = st.slideContent ∧
      (App1.copyContentToClipboard st ClipOutcome.rejected).1.image = st.image ∧
      (App1.copyContentToClipboard st ClipOutcome.rejected).1.base64ImageData = st.base64ImageData ∧
      (App1.copyContentToClipboard st ClipOutcome.rejected).1.showToast = st.showToast)) ∧
    (st.slideContent = none →
      App1.copyContentToClipboard st clip = (st, none)) := by
  intro st ps clip
  constructor
  · intro htru hbul
    have hres : (App1.copyContentToClipboard st ClipOutcome.rejected).1 =
        { st with error := "Could not copy text to clipboard.", status := Status.error } := by
      simp [App1.copyContentToClipboard, htru, hbul]
    rw [hres]
    exact ⟨rfl, rfl, rfl, rfl⟩
  · intro hnone
    have htru : slideTruthy st.slideContent = false := by rw [hnone]; rfl
    simp [App1.copyContentToClipboard, htru]

/-- C10 witness: the frame theorem applied at the concrete success state, and
the no-op branch applied at the concrete state with null SlideContent. -/
theorem claim_C10_witness :
    (App1.copyContentToClipboard sampleContentState ClipOutcome.rejected).1.slideContent =
      sampleContentState.slideContent ∧
    App1.copyContentToClipboard sampleState ClipOutcome.resolved = (sampleState, none) :=
  ⟨((claim_C10 sampleContentState
      [JsValue.str "Revenue up 12%", JsValue.str "New markets opened"]
      ClipOutcome.rejected).1 rfl rfl).1,
   (claim_C10 sampleState [] ClipOutcome.resolved).2 rfl⟩

/-- C8 counterexample: exports at times 0 and 1000 (within the 2-second
window).  The pending timer still expires at 2000, not 3000: at time 2500 the
toast is already hidden although the claim says it stays visible until 3000
(2 seconds after the second trigger). -/
theorem claim_C8_counterexample :
    ToastTimer.visibleAt (ToastTimer.trigger (ToastTimer.trigger ⟨false, none⟩ 0) 1000) 2500 = false ∧
    (ToastTimer.trigger (ToastTimer.trigger ⟨false, none⟩ 0) 1000).expiry = some 2000 :=
  ⟨rfl, rfl⟩

/-- C8 amended: a successful export while the toast is hidden shows it for a
fixed 2-second window; an export while the toast is still visible is absorbed
— setting `showToast` to its current value does not re-run the effect, so the
original timer is neither cancelled nor restarted — and after two exports
within 2 seconds the toast stays visible continuously but disappears exactly
2 seconds after the first trigger, not the second. -/
theorem claim_C8 : ∀ (t1 t2 u : Nat),
    (t1 ≤ u → u < t1 + 2000 →
      ToastTimer.visibleAt (ToastTimer.trigger ⟨false, none⟩ t1) u = true) ∧
    (t1 + 2000 ≤ u →
      ToastTimer.visibleAt (ToastTimer.trigger ⟨false, none⟩ t1) u = false) ∧
    (t1 ≤ t2 → t2 < t1 + 2000 →
      (ToastTimer.trigger (ToastTimer.trigger ⟨false, none⟩ t1) t2 =
         ToastTimer.trigger ⟨false, none⟩ t1 ∧
       (t2 ≤ u → u < t1 + 2000 →
         ToastTimer.visibleAt (ToastTimer.trigger (ToastTimer.trigger ⟨false, none⟩ t1) t2) u = true) ∧
       (t1 + 2000 ≤ u →
         ToastTimer.visibleAt (ToastTimer.trigger (ToastTimer.trigger ⟨false, none⟩ t1) t2) u = false))) := by
  intro t1 t2 u
  have htrig : ToastTimer.trigger ⟨false, none⟩ t1 = ⟨true, some (t1 + 2000)⟩ := rfl
  have hvis : ∀ v : Nat, t1 + 2000 ≤ v →
      ToastTimer.visibleAt (⟨true, some (t1 + 2000)⟩ : ToastTimer.TState) v = false := by
    intro v hv
    unfold ToastTimer.visibleAt
    rw [fireDue_some, if_pos hv]
  have hvis2 : ∀ v : Nat, v < t1 + 2000 →
      ToastTimer.visibleAt (⟨true, some (t1 + 2000)⟩ : ToastTimer.TState) v = true := by
    intro v hv
    unfold ToastTimer.visibleAt
    rw [fireDue_some, if_neg (by omega)]
  refine ⟨fun h1 h2 => ?_, fun h => ?_, fun h1 h2 => ?_⟩
  · rw [htrig]
    exact hvis2 u h2
  · rw [htrig]
    exact hvis u h
  · have habsorb : ToastTimer.trigger (ToastTimer.trigger ⟨false, none⟩ t1) t2 =
        ToastTimer.trigger ⟨false, none⟩ t1 := by
      rw [htrig]
      unfold ToastTimer.trigger
      have hne : ¬ (t1 + 2000 ≤ t2) := by omega
      rw [fireDue_some, if_neg hne]
      rfl
    refine ⟨habsorb, fun h3 h4 => ?_, fun h => ?_⟩
    · rw [habsorb, htrig]
      exact hvis2 u h4
    · rw [habsorb, htrig]
      exact hvis u h

/-- C8 witness: the amended theorem applied at exports at times 0 and 1000,
observed at times 500 and 2500. -/
theorem claim_C8_witness :
    ToastTimer.visibleAt (ToastTimer.trigger ⟨false, none⟩ 0) 500 = true ∧
    ToastTimer.visibleAt (ToastTimer.trigger (ToastTimer.trigger ⟨false, none⟩ 0) 1000) 2500 = false :=
  ⟨(claim_C8 0 1000 500).1 (by omega) (by omega),
   ((claim_C8 0 1000 2500).2.2 (by omega) (by omega)).2.2 (by omega)⟩
